import Mathlib

/-!
Shallow embedding of the WordFinder constraint engine (`wordtool.py`).

Modelling conventions:
* Python `defaultdict(int, ...)` letter-count dictionaries become total
  functions `Char → Nat`: `_EMPTY_DICT` is the constant-zero function
  (26 letters at 0, default 0); `_UNLIMITED_DICT` maps the 26 lowercase
  letters to the sentinel `_LETTER_MAX_COUNT` and every other character to
  the defaultdict default 0.
* Where the source iterates a dictionary's keys (`iterkeys`), the model
  supplies the key list explicitly: a dict produced by `_letter_count s`
  has keys `a..z` plus the characters of `s`, and the guard access
  `counted['?']` in `_update_excluded_letters_regex` inserts the key `'?'`.
* The compiled pattern `self._regex` is an opaque `re` object; it is
  embedded as `Option (String → Bool)` (the Boolean is the truth of
  `regex.search word`).  The derived excluded-letters regex is always a
  single character class, so it is embedded concretely as
  `Option (List Char)` with `search` = "some character of the word is in
  the class".
* Mutating methods become functions `WordToolState → ... → WordToolState`
  (paired with `Option WordToolError` when the Python code can raise);
  a raise leaves the fields exactly as mutated up to that point, as in
  Python.  `WordToolError.ConflictingConstraint` stands for the
  `AttributeError` raised on available/limited conflicts,
  `InvalidPattern` for `re.error`, `InvalidWordListSource` for `IOError`.
* File I/O is abstracted by a function `fs : String → Option (List String)`
  giving the lines of a readable file (`none` = unreadable).
-/

def _LETTER_MAX_COUNT : Nat := 100

def _EMPTY_DICT : Char → Nat := fun _ => 0

def _UNLIMITED_DICT : Char → Nat := fun c =>
  if 'a' ≤ c ∧ c ≤ 'z' then _LETTER_MAX_COUNT else 0

/-- The 26 lowercase letters, the initial key set of `_EMPTY_DICT` and
`_UNLIMITED_DICT`. -/
def _az_letters : List Char :=
  ['a', 'b', 'c', 'd', 'e', 'f', 'g', 'h', 'i', 'j', 'k', 'l', 'm',
   'n', 'o', 'p', 'q', 'r', 's', 't', 'u', 'v', 'w', 'x', 'y', 'z']

/-- One step of `Lc[L] += 1` on a letter-count dictionary. -/
def _count_step (Lc : Char → Nat) (L : Char) : Char → Nat :=
  fun c => if c = L then Lc L + 1 else Lc c

/-- `_letter_count(word)`: tally of each character of `word`, starting from
the all-zero dictionary. -/
def _letter_count (word : String) : Char → Nat :=
  word.toList.foldl _count_step _EMPTY_DICT

/-- One step of the `_limiting_letter_count` loop: the first occurrence of a
letter resets its sentinel `_LETTER_MAX_COUNT` to 0 before incrementing. -/
def _limit_step (Lc : Char → Nat) (L : Char) : Char → Nat :=
  fun c => if c = L then (if Lc L = _LETTER_MAX_COUNT then 0 else Lc L) + 1 else Lc c

/-- `_limiting_letter_count(word)`: per-letter caps for the letters listed in
`word`; unlisted lowercase letters keep the unlimited sentinel. -/
def _limiting_letter_count (word : String) : Char → Nat :=
  word.toList.foldl _limit_step _UNLIMITED_DICT

/-- The loop of `_word_is_subset_of`: walk the remaining letters, increment
the running tally, consume a wildcard whenever a letter's tally exceeds its
budget, and fail as soon as the wildcards are exhausted (returning the tally
as accumulated so far). -/
def _subset_loop (letterset : Char → Nat) :
    List Char → (Char → Nat) → Nat → Bool × (Char → Nat)
  | [], Lc, _ => (true, Lc)
  | L :: rest, Lc, wildcards_used =>
    if letterset L < Lc L + 1 then
      if letterset '?' < wildcards_used + 1 then (false, _count_step Lc L)
      else _subset_loop letterset rest (_count_step Lc L) (wildcards_used + 1)
    else _subset_loop letterset rest (_count_step Lc L) wildcards_used

/-- `_word_is_subset_of(word, letterset)` from the source. -/
def _word_is_subset_of (word : String) (letterset : Char → Nat) :
    Bool × (Char → Nat) :=
  _subset_loop letterset word.toList _EMPTY_DICT 0

/-- The key set of the dictionary `_letter_count s`: the 26 letters of the
initial `_EMPTY_DICT` plus every character of `s`. -/
def _dict_keys (s : String) : List Char := _az_letters ++ s.toList

/-- `_word_contains_at_least(word, letterset, Lc)`: every key of the
requirement dictionary must be tallied at least its required count; a `none`
tally is recomputed with `_letter_count`. -/
def _word_contains_at_least (word : String) (letterset : Char → Nat)
    (keys : List Char) (Lc0 : Option (Char → Nat)) : Bool :=
  let Lc := match Lc0 with
    | none => _letter_count word
    | some l => l
  keys.all (fun L => decide (letterset L ≤ Lc L))

/-- Python `str.strip()` on a line read from a word-list source. -/
def _strip (s : String) : String :=
  String.mk (((s.toList.dropWhile (fun c => c.isWhitespace)).reverse.dropWhile
    (fun c => c.isWhitespace)).reverse)

/-- `_read_wordlist(filehandle)`: strip every line of the stream. -/
def _read_wordlist (lines : List String) : List String := lines.map _strip

def _DEFAULT_DICTIONARY_FILE : String := "wordlist"

/-- `_load_wordlist(filename)` over an abstract file system `fs`;
`none` models the `IOError` of an unreadable file. -/
def _load_wordlist (fs : String → Option (List String)) (filename : String) :
    Option (List String) :=
  let filename := if filename = "" then _DEFAULT_DICTIONARY_FILE else filename
  (fs filename).map _read_wordlist

inductive WordToolError where
  | ConflictingConstraint
  | InvalidPattern
  | InvalidWordListSource
  deriving DecidableEq

/-- The attributes of a `WordTool` object (`__init__`, lines 142-160). -/
structure WordToolState where
  _max_length : Nat
  _effective_max_length : Nat
  _min_length : Nat
  _effective_min_length : Nat
  _available_letters : String
  _available_letters_counted : Option (Char → Nat)
  _limited_letters : String
  _excluded_letters : String
  _excluded_letters_regex : Option (List Char)
  _included_letters : String
  _included_letters_counted : Option (Char → Nat)
  _pattern : String
  _regex : Option (String → Bool)
  wordlist : List String
  _cache_is_good : Bool
  _cached_words : List String
  extra_tests : List (String → Bool)
  _dictionary_file : String

/-- The field values set by `__init__` before the final
`self.dictionary_file = dictionary_file` line runs. -/
def WordTool_init_fields : WordToolState where
  _max_length := 0
  _effective_max_length := 0
  _min_length := 0
  _effective_min_length := 0
  _available_letters := ""
  _available_letters_counted := none
  _limited_letters := ""
  _excluded_letters := ""
  _excluded_letters_regex := none
  _included_letters := ""
  _included_letters_counted := none
  _pattern := ""
  _regex := none
  wordlist := []
  _cache_is_good := false
  _cached_words := []
  extra_tests := []
  _dictionary_file := ""

/-- `_update_effective_max_length` (lines 205-213). -/
def _update_effective_max_length (st : WordToolState) : WordToolState :=
  if st._max_length ≠ 0 ∧ st._available_letters ≠ "" then
    { st with _effective_max_length := min st._max_length st._available_letters.length }
  else if st._available_letters ≠ "" then
    { st with _effective_max_length := st._available_letters.length }
  else if st._max_length ≠ 0 then
    { st with _effective_max_length := st._max_length }
  else
    { st with _effective_max_length := 0 }

/-- `_update_effective_min_length` (lines 215-223). -/
def _update_effective_min_length (st : WordToolState) : WordToolState :=
  if st._min_length ≠ 0 ∧ st._included_letters ≠ "" then
    { st with _effective_min_length := max st._min_length st._included_letters.length }
  else if st._included_letters ≠ "" then
    { st with _effective_min_length := st._included_letters.length }
  else if st._min_length ≠ 0 then
    { st with _effective_min_length := st._min_length }
  else
    { st with _effective_min_length := 0 }

/-- The `unavailable_letters` list of `_update_excluded_letters_regex`
(lines 309-311): if `available_letters` is active with zero wildcard slack,
every key of the counted dictionary whose count is zero.  The key set is
`a..z` plus the characters of the available string plus `'?'` (inserted by
the defaultdict access `counted['?']` in the guard). -/
def _unavailable_letters (st : WordToolState) : List Char :=
  match st._available_letters_counted with
  | some counted =>
    if st._available_letters ≠ "" ∧ counted '?' = 0 then
      ((_az_letters ++ st._available_letters.toList ++ ['?']).dedup).filter
        (fun L => counted L == 0)
    else []
  | none => []

/-- The character class of the derived excluded-letters regex: the union of
the literal excluded-letter set and `_unavailable_letters`. -/
def _excl_class (st : WordToolState) : List Char :=
  (st._excluded_letters.toList.dedup ++ _unavailable_letters st).dedup

/-- `_update_excluded_letters_regex` (lines 305-318): compile the character
class if the union is non-empty, else clear the regex. -/
def _update_excluded_letters_regex (st : WordToolState) : WordToolState :=
  { st with _excluded_letters_regex :=
      if _excl_class st = [] then none else some (_excl_class st) }

/-- `regex.search(word)` for a character-class regex `[...]`: true iff some
character of the word belongs to the class. -/
def _char_class_search (cls : List Char) (word : String) : Bool :=
  word.toList.any (fun c => cls.contains c)

/-- The `max_length` setter (lines 187-191). -/
def set_max_length (st : WordToolState) (value : Nat) : WordToolState :=
  _update_effective_max_length { st with _cache_is_good := false, _max_length := value }

/-- The `min_length` setter (lines 198-202). -/
def set_min_length (st : WordToolState) (value : Nat) : WordToolState :=
  _update_effective_min_length { st with _cache_is_good := false, _min_length := value }

/-- The `available_letters` setter (lines 230-243).  The raise on a conflict
with `limited_letters` happens after the cache flag is cleared but before
any field is replaced. -/
def set_available_letters (st : WordToolState) (value : String) :
    WordToolState × Option WordToolError :=
  if value = st._available_letters then (st, none)
  else
    let st1 := { st with _cache_is_good := false }
    if st1._limited_letters ≠ "" then (st1, some .ConflictingConstraint)
    else
      let st2 := { st1 with
        _available_letters := value,
        _available_letters_counted :=
          if value ≠ "" then some (_letter_count value) else none }
      (_update_excluded_letters_regex (_update_effective_max_length st2), none)

/-- The `limited_letters` setter (lines 250-262). -/
def set_limited_letters (st : WordToolState) (value : String) :
    WordToolState × Option WordToolError :=
  if value = st._limited_letters then (st, none)
  else
    let st1 := { st with _cache_is_good := false }
    if st1._available_letters ≠ "" then (st1, some .ConflictingConstraint)
    else
      let st2 := { st1 with
        _limited_letters := value,
        _available_letters_counted :=
          if value ≠ "" then some (_limiting_letter_count value) else none }
      (_update_excluded_letters_regex st2, none)

/-- The `excluded_letters` setter (lines 269-273). -/
def set_excluded_letters (st : WordToolState) (value : String) : WordToolState :=
  _update_excluded_letters_regex
    { st with _cache_is_good := false, _excluded_letters := value }

/-- The `included_letters` setter (lines 280-288). -/
def set_included_letters (st : WordToolState) (value : String) : WordToolState :=
  _update_effective_min_length
    { st with
      _cache_is_good := false,
      _included_letters := value,
      _included_letters_counted :=
        if value ≠ "" then some (_letter_count value) else none }

/-- The `pattern` setter (lines 295-302), over an abstract regex compiler
(`compile v = none` models `re.compile` raising `re.error`).  The raise
happens after `_pattern` is replaced and the cache flag cleared, leaving the
previously compiled `_regex` in place. -/
def set_pattern (compile : String → Option (String → Bool))
    (st : WordToolState) (value : String) : WordToolState × Option WordToolError :=
  let st1 := { st with _cache_is_good := false, _pattern := value }
  if value ≠ "" then
    match compile value with
    | some r => ({ st1 with _regex := some r }, none)
    | none => (st1, some .InvalidPattern)
  else
    ({ st1 with _regex := none }, none)

/-- The `dictionary_file` setter (lines 166-172): clears the cache flag,
defaults an empty name, stores the name, then loads the word list (an
unreadable file raises after the name is already stored). -/
def set_dictionary_file (fs : String → Option (List String))
    (st : WordToolState) (value : String) : WordToolState × Option WordToolError :=
  let st1 := { st with _cache_is_good := false }
  let value := if value = "" then _DEFAULT_DICTIONARY_FILE else value
  let st2 := { st1 with _dictionary_file := value }
  match _load_wordlist fs value with
  | some words => ({ st2 with wordlist := words }, none)
  | none => (st2, some .InvalidWordListSource)

/-- `read_dictionary_from(filehandle)` (lines 174-179): replaces the stored
file name and the word list with the stream's stripped lines.  Note that,
unlike the `dictionary_file` setter, it does not touch `_cache_is_good`. -/
def read_dictionary_from (st : WordToolState) (name : String)
    (lines : List String) : WordToolState :=
  { st with _dictionary_file := name, wordlist := _read_wordlist lines }

/-- Direct assignment `tool.wordlist = value`: `wordlist` is a plain
attribute, so no setter runs and the cache flag is untouched. -/
def set_wordlist (st : WordToolState) (value : List String) : WordToolState :=
  { st with wordlist := value }

/-- `check_for(word)` (lines 321-323). -/
def check_for (st : WordToolState) (word : String) : Bool :=
  st.wordlist.contains word

/-- The guard `self._regex and not self._regex.search(word)`. -/
def _regex_fail (st : WordToolState) (word : String) : Bool :=
  match st._regex with
  | some r => !(r word)
  | none => false

/-- The guard `self._excluded_letters_regex and
self._excluded_letters_regex.search(word)`. -/
def _excluded_match (st : WordToolState) (word : String) : Bool :=
  match st._excluded_letters_regex with
  | some cls => _char_class_search cls word
  | none => false

/-- Lines 346-352 of `passes_internal_tests`: the available/limited budget
check (threading its tally into the included-letters check) followed by the
included-letters check. -/
def _subset_and_included (st : WordToolState) (word : String) : Bool :=
  match st._available_letters_counted with
  | some budget =>
    match _word_is_subset_of word budget with
    | (false, _) => false
    | (true, Lc) =>
      match st._included_letters_counted with
      | some req =>
        _word_contains_at_least word req (_dict_keys st._included_letters) (some Lc)
      | none => true
  | none =>
    match st._included_letters_counted with
    | some req =>
      _word_contains_at_least word req (_dict_keys st._included_letters) none
    | none => true

/-- `passes_internal_tests(word)` (lines 335-352). -/
def passes_internal_tests (st : WordToolState) (word : String) : Bool :=
  if st._effective_min_length ≠ 0 ∧ word.length < st._effective_min_length then false
  else if st._effective_max_length ≠ 0 ∧ st._effective_max_length < word.length then false
  else if _regex_fail st word then false
  else if _excluded_match st word then false
  else _subset_and_included st word

/-- `passes_extra_tests(word)` (lines 354-359). -/
def passes_extra_tests (st : WordToolState) (word : String) : Bool :=
  st.extra_tests.all (fun t => t word)

/-- `is_word_valid(word)` (lines 331-333). -/
def is_word_valid (st : WordToolState) (word : String) : Bool :=
  passes_internal_tests st word && passes_extra_tests st word

/-- `find_words()` (lines 361-369): rebuild the cache from the word list when
stale, mark it fresh, then filter the cached words through the extra tests. -/
def find_words (st : WordToolState) : WordToolState × List String :=
  let st' :=
    if st._cache_is_good then st
    else { st with
      _cached_words := st.wordlist.filter (fun w => passes_internal_tests st w),
      _cache_is_good := true }
  (st', st'._cached_words.filter (fun w => passes_extra_tests st' w))

/-! ## Proof-support definitions -/

/-- The number of wildcard consumptions the `_subset_loop` would make while
walking the remaining letters from the running tally `Lc`: one for each
letter occurrence whose incremented tally exceeds its budget. -/
def _excess_from (letterset : Char → Nat) : List Char → (Char → Nat) → Nat
  | [], _ => 0
  | L :: rest, Lc =>
    (if letterset L < Lc L + 1 then 1 else 0) +
      _excess_from letterset rest (_count_step Lc L)

/-- The total number of letter occurrences of `word` exceeding their
per-letter budget: `∑ over the distinct letters c of word` of
`count(c) - budget(c)` (truncated subtraction). -/
def _total_excess (word : String) (letterset : Char → Nat) : Nat :=
  ∑ c in word.toList.toFinset, (word.toList.count c - letterset c)

/-- The spec's formula (§4.3) for the effective max length, as a function of
the two inputs it names. -/
def effective_max_length_spec (maxLen : Nat) (avail : String) : Nat :=
  if maxLen ≠ 0 ∧ avail ≠ "" then min maxLen avail.length
  else if avail ≠ "" then avail.length
  else if maxLen ≠ 0 then maxLen
  else 0

/-- The spec's formula (§4.3) for the effective min length. -/
def effective_min_length_spec (minLen : Nat) (included : String) : Nat :=
  if minLen ≠ 0 ∧ included ≠ "" then max minLen included.length
  else if included ≠ "" then included.length
  else if minLen ≠ 0 then minLen
  else 0

/-- The mutual-exclusion invariant of the engine: `available_letters` and
`limited_letters` are never both non-empty (established by `__init__` and
preserved by every setter). -/
def MutexInv (st : WordToolState) : Prop :=
  st._available_letters = "" ∨ st._limited_letters = ""

/-- The stored excluded-letters regex agrees with a recomputation from the
current fields (every setter that touches an input re-runs
`_update_excluded_letters_regex`, so reachable states satisfy this). -/
def RegexConsistent (st : WordToolState) : Prop :=
  st._excluded_letters_regex = (_update_excluded_letters_regex st)._excluded_letters_regex

/-- When `available_letters` is active the stored counted multiset is the
letter count of the available string (established by the setter). -/
def CountedConsistent (st : WordToolState) : Prop :=
  st._available_letters ≠ "" →
    st._available_letters_counted = some (_letter_count st._available_letters)

/-- A fresh cache holds exactly the internal-test survivors of the current
word list (established by `find_words`). -/
def CacheConsistent (st : WordToolState) : Prop :=
  st._cache_is_good = true →
    st._cached_words = st.wordlist.filter (fun w => passes_internal_tests st w)

/-- A concrete stand-in regex compiler for witnesses: `"("` is the one
malformed pattern, every other pattern compiles to an exact-match test. -/
def compile_stub : String → Option (String → Bool) :=
  fun s => if s = "(" then none else some (fun w => w == s)

/-- A fresh engine whose word list is `["cat"]`. -/
def cat_state : WordToolState := { WordTool_init_fields with wordlist := ["cat"] }

/-- A fresh engine whose word list is `["cat", "cats"]`. -/
def cat_list_state : WordToolState :=
  { WordTool_init_fields with wordlist := ["cat", "cats"] }

/-- A fresh engine whose word list is `["cat", "dog"]`. -/
def word_state : WordToolState :=
  { WordTool_init_fields with wordlist := ["cat", "dog"] }

/-- A fresh engine after `available_letters = "cat"`. -/
def avail_cat_state : WordToolState :=
  (set_available_letters WordTool_init_fields "cat").1

/-- A fresh engine after `limited_letters = "cat"`. -/
def limited_cat_state : WordToolState :=
  (set_limited_letters WordTool_init_fields "cat").1

/-- A fresh engine after `pattern = "ab"` (compiled with `compile_stub`). -/
def pattern_ab_state : WordToolState :=
  (set_pattern compile_stub WordTool_init_fields "ab").1

/-! ## Letter-counting lemmas -/

theorem count_step_same (Lc : Char → Nat) (L : Char) : _count_step Lc L L = Lc L + 1 := by
  simp [_count_step]

theorem count_step_ne (Lc : Char → Nat) (L c : Char) (h : c ≠ L) :
    _count_step Lc L c = Lc c := by
  simp [_count_step, h]

theorem foldl_count_step (l : List Char) :
    ∀ (Lc : Char → Nat) (c : Char), (l.foldl _count_step Lc) c = Lc c + l.count c := by
  induction l with
  | nil => intro Lc c; simp
  | cons a l ih =>
    intro Lc c
    rw [List.foldl_cons, ih, List.count_cons]
    by_cases h : c = a
    · subst h; rw [count_step_same]; simp; omega
    · rw [count_step_ne _ _ _ h]
      have h' : ¬a = c := fun hac => h hac.symm
      simp [h, h']

theorem letter_count_eq_count (s : String) (c : Char) :
    _letter_count s c = s.toList.count c := by
  rw [_letter_count, foldl_count_step]
  simp [_EMPTY_DICT]

theorem letter_count_ne_zero_of_mem (s : String) (x : Char) (hx : x ∈ s.toList) :
    _letter_count s x ≠ 0 := by
  rw [letter_count_eq_count]
  have := List.count_pos_iff.mpr hx
  omega

/-! ## The `_word_is_subset_of` characterisation (C3) -/

theorem subset_loop_fst_iff (letterset : Char → Nat) (l : List Char) :
    ∀ (Lc : Char → Nat) (used : Nat), used ≤ letterset '?' →
      ((_subset_loop letterset l Lc used).1 = true ↔
        used + _excess_from letterset l Lc ≤ letterset '?') := by
  induction l with
  | nil =>
    intro Lc used h
    simp only [_subset_loop, _excess_from]
    simp [h]
  | cons L rest ih =>
    intro Lc used h
    simp only [_subset_loop, _excess_from]
    by_cases h1 : letterset L < Lc L + 1
    · simp only [if_pos h1]
      by_cases h2 : letterset '?' < used + 1
      · simp only [if_pos h2]
        constructor
        · intro hc; simp at hc
        · intro hc; exfalso; omega
      · simp only [if_neg h2]
        rw [ih (_count_step Lc L) (used + 1) (by omega)]
        constructor <;> intro <;> omega
    · simp only [if_neg h1]
      rw [ih (_count_step Lc L) used h]
      constructor <;> intro <;> omega

theorem excess_from_eq_sum (letterset : Char → Nat) (S : Finset Char) (l : List Char) :
    (∀ c ∈ l, c ∈ S) → ∀ (Lc : Char → Nat),
      _excess_from letterset l Lc =
        ∑ c in S, ((Lc c + l.count c) - max (Lc c) (letterset c)) := by
  induction l with
  | nil =>
    intro _ Lc
    simp only [_excess_from, List.count_nil]
    refine (Finset.sum_eq_zero ?_).symm
    intro c _
    have := le_max_left (Lc c) (letterset c)
    omega
  | cons L rest ih =>
    intro hmem Lc
    have hLS : L ∈ S := hmem L (List.mem_cons_self L rest)
    have hrest : ∀ c ∈ rest, c ∈ S := fun c hc => hmem c (List.mem_cons_of_mem _ hc)
    simp only [_excess_from]
    rw [ih hrest (_count_step Lc L)]
    rw [← Finset.add_sum_erase S
      (fun c => (Lc c + (L :: rest).count c) - max (Lc c) (letterset c)) hLS]
    rw [← Finset.add_sum_erase S
      (fun c => (_count_step Lc L c + rest.count c) - max (_count_step Lc L c) (letterset c)) hLS]
    have hsum : ∑ c in S.erase L,
        ((_count_step Lc L c + rest.count c) - max (_count_step Lc L c) (letterset c)) =
        ∑ c in S.erase L, ((Lc c + (L :: rest).count c) - max (Lc c) (letterset c)) := by
      refine Finset.sum_congr rfl ?_
      intro c hc
      have hne : c ≠ L := (Finset.mem_erase.mp hc).1
      have hne' : ¬(c = L) := hne
      have hne2 : ¬L = c := fun hh => hne' hh.symm
      rw [count_step_ne _ _ _ hne, List.count_cons]
      simp [hne', hne2]
    rw [hsum]
    rw [count_step_same, List.count_cons_self]
    rcases le_or_lt (letterset L) (Lc L) with hb | hb
    · rw [if_pos (by omega), max_eq_left hb, max_eq_left (by omega)]
      omega
    · rw [if_neg (by omega), max_eq_right hb.le, max_eq_right (by omega)]
      omega

theorem excess_from_empty_eq_total (word : String) (letterset : Char → Nat) :
    _excess_from letterset word.toList _EMPTY_DICT = _total_excess word letterset := by
  rw [excess_from_eq_sum letterset word.toList.toFinset word.toList
    (fun c hc => List.mem_toFinset.mpr hc) _EMPTY_DICT]
  refine Finset.sum_congr rfl ?_
  intro c _
  simp [_EMPTY_DICT, _total_excess]

theorem subset_loop_snd_of_fst (letterset : Char → Nat) (l : List Char) :
    ∀ (Lc : Char → Nat) (used : Nat), (_subset_loop letterset l Lc used).1 = true →
      (_subset_loop letterset l Lc used).2 = l.foldl _count_step Lc := by
  induction l with
  | nil => intro Lc used _; simp [_subset_loop]
  | cons L rest ih =>
    intro Lc used h
    simp only [_subset_loop] at h ⊢
    by_cases h1 : letterset L < Lc L + 1
    · simp only [if_pos h1] at h ⊢
      by_cases h2 : letterset '?' < used + 1
      · simp only [if_pos h2] at h; simp at h
      · simp only [if_neg h2] at h ⊢
        rw [List.foldl_cons]
        exact ih _ _ h
    · simp only [if_neg h1] at h ⊢
      rw [List.foldl_cons]
      exact ih _ _ h

theorem subset_loop_snd_of_fail (letterset : Char → Nat) (l : List Char) :
    ∀ (Lc : Char → Nat) (used : Nat), (_subset_loop letterset l Lc used).1 = false →
      ∃ p q, l = p ++ q ∧ (_subset_loop letterset l Lc used).2 = p.foldl _count_step Lc := by
  induction l with
  | nil => intro Lc used h; simp [_subset_loop] at h
  | cons L rest ih =>
    intro Lc used h
    simp only [_subset_loop] at h ⊢
    by_cases h1 : letterset L < Lc L + 1
    · simp only [if_pos h1] at h ⊢
      by_cases h2 : letterset '?' < used + 1
      · simp only [if_pos h2]
        exact ⟨[L], rest, rfl, rfl⟩
      · simp only [if_neg h2] at h ⊢
        obtain ⟨p, q, hpq, hsnd⟩ := ih (_count_step Lc L) (used + 1) h
        exact ⟨L :: p, q, by rw [hpq]; rfl, by rw [hsnd, List.foldl_cons]⟩
    · simp only [if_neg h1] at h ⊢
      obtain ⟨p, q, hpq, hsnd⟩ := ih (_count_step Lc L) used h
      exact ⟨L :: p, q, by rw [hpq]; rfl, by rw [hsnd, List.foldl_cons]⟩

/-- C3: `_word_is_subset_of(word, budget)` succeeds exactly when the total
number of letter occurrences of the word exceeding their per-letter budget is
at most the wildcard budget `budget '?'`; on success the returned tally is the
full letter count of the word, on failure it is the tally of some prefix
walked before the early return.  With budget `"cat?"`, the 4-letter word
`"chat"` (one letter outside `{c,a,t}`) passes and `"bath"` (two letters
outside) fails. -/
theorem wordtool_C3_subset_of (word : String) (letterset : Char → Nat) :
    ((_word_is_subset_of word letterset).1 = true ↔
      _total_excess word letterset ≤ letterset '?')
    ∧ ((_word_is_subset_of word letterset).1 = true →
        (_word_is_subset_of word letterset).2 = _letter_count word)
    ∧ ((_word_is_subset_of word letterset).1 = false →
        ∃ p q, word.toList = p ++ q ∧
          (_word_is_subset_of word letterset).2 = p.foldl _count_step _EMPTY_DICT)
    ∧ (_word_is_subset_of "chat" (_letter_count "cat?")).1 = true
    ∧ (_word_is_subset_of "bath" (_letter_count "cat?")).1 = false := by
  refine ⟨?_, ?_, ?_, by decide, by decide⟩
  · rw [_word_is_subset_of,
      subset_loop_fst_iff letterset word.toList _EMPTY_DICT 0 (Nat.zero_le _),
      Nat.zero_add, excess_from_empty_eq_total]
  · intro h
    exact subset_loop_snd_of_fst letterset word.toList _EMPTY_DICT 0 h
  · intro h
    exact subset_loop_snd_of_fail letterset word.toList _EMPTY_DICT 0 h

/-- Witness for C3 at `word = "chat"`, `budget = _letter_count "cat?"`. -/
theorem wordtool_C3_subset_of_witness :
    ((_word_is_subset_of "chat" (_letter_count "cat?")).1 = true ↔
      _total_excess "chat" (_letter_count "cat?") ≤ _letter_count "cat?" '?')
    ∧ (_word_is_subset_of "chat" (_letter_count "cat?")).2 = _letter_count "chat" :=
  ⟨(wordtool_C3_subset_of "chat" (_letter_count "cat?")).1,
   (wordtool_C3_subset_of "chat" (_letter_count "cat?")).2.1 (by decide)⟩

/-! ## `find_words` and the cache (C1, C2, C5) -/

theorem find_words_stale (st : WordToolState) (h : st._cache_is_good = false) :
    (find_words st).2 =
      st.wordlist.filter (fun w => passes_internal_tests st w && passes_extra_tests st w) := by
  simp only [find_words, h, Bool.false_eq_true, if_false]
  show (st.wordlist.filter (fun w => passes_internal_tests st w)).filter
      (fun w => passes_extra_tests st w) =
    st.wordlist.filter (fun w => passes_internal_tests st w && passes_extra_tests st w)
  rw [List.filter_filter]
  congr 1
  funext a
  exact Bool.and_comm _ _

theorem find_words_fresh (st : WordToolState) (h : st._cache_is_good = true) :
    (find_words st).2 = st._cached_words.filter (fun w => passes_extra_tests st w) := by
  simp only [find_words, h, if_true]

/-- C2: with a stale cache, `find_words()` returns exactly the words of the
current word list passing both the internal and the extra tests, as a stable
(sublist-of-the-word-list) filter. -/
theorem wordtool_C2_find_words (st : WordToolState) (h : st._cache_is_good = false) :
    (find_words st).2 =
      st.wordlist.filter (fun w => passes_internal_tests st w && passes_extra_tests st w)
    ∧ ((find_words st).2).Sublist st.wordlist := by
  refine ⟨find_words_stale st h, ?_⟩
  rw [find_words_stale st h]
  exact List.filter_sublist _

/-- Witness for C2 at a concrete fresh engine with word list `["cat","cats"]`. -/
theorem wordtool_C2_find_words_witness :
    (find_words cat_list_state).2 =
      cat_list_state.wordlist.filter
        (fun w => passes_internal_tests cat_list_state w && passes_extra_tests cat_list_state w)
    ∧ ((find_words cat_list_state).2).Sublist cat_list_state.wordlist :=
  wordtool_C2_find_words cat_list_state rfl

/-- C5: calling `find_words()` twice with no mutation in between returns
identical result lists. -/
theorem wordtool_C5_idempotent (st : WordToolState) :
    (find_words (find_words st).1).2 = (find_words st).2 := by
  cases h : st._cache_is_good
  · simp [find_words, h]
  · simp [find_words, h]

/-- C1 (code bug): `read_dictionary_from` (and a direct `wordlist`
assignment) replaces the word list without clearing `_cache_is_good`, so the
next `find_words()` returns the cached results of the previous word list:
after querying an engine whose list is `["cat"]` and then installing
`["dog"]` through `read_dictionary_from`, the cache is still marked fresh and
`find_words()` still answers `["cat"]`. -/
theorem wordtool_C1_read_dictionary_keeps_stale_cache :
    (read_dictionary_from (find_words cat_state).1 "stream" ["dog"])._cache_is_good = true
    ∧ (read_dictionary_from (find_words cat_state).1 "stream" ["dog"]).wordlist = ["dog"]
    ∧ (find_words (read_dictionary_from (find_words cat_state).1 "stream" ["dog"])).2 = ["cat"]
    ∧ (set_wordlist (find_words cat_state).1 ["dog"])._cache_is_good = true
    ∧ (find_words (set_wordlist (find_words cat_state).1 ["dog"])).2 = ["cat"] := by
  decide

/-! ## Mutual exclusion of available/limited letters (C4) -/

/-- C4: on an engine satisfying the mutual-exclusion invariant, setting
`limited_letters` to a non-empty value while `available_letters` is non-empty
raises `ConflictingConstraint` and leaves both letter fields unchanged, and
symmetrically for setting `available_letters` while `limited_letters` is
non-empty. -/
theorem wordtool_C4_mutual_exclusion (st : WordToolState) (v : String)
    (hinv : MutexInv st) :
    (st._available_letters ≠ "" → v ≠ "" →
      (set_limited_letters st v).2 = some WordToolError.ConflictingConstraint
      ∧ (set_limited_letters st v).1._available_letters = st._available_letters
      ∧ (set_limited_letters st v).1._limited_letters = st._limited_letters)
    ∧ (st._limited_letters ≠ "" → v ≠ "" →
      (set_available_letters st v).2 = some WordToolError.ConflictingConstraint
      ∧ (set_available_letters st v).1._available_letters = st._available_letters
      ∧ (set_available_letters st v).1._limited_letters = st._limited_letters) := by
  constructor
  · intro ha hv
    have hlim : st._limited_letters = "" := hinv.resolve_left (fun he => ha he)
    have hne : ¬v = st._limited_letters := by rw [hlim]; exact hv
    simp [set_limited_letters, hne, ha]
  · intro hl hv
    have hav : st._available_letters = "" := by
      rcases hinv with h | h
      · exact h
      · exact absurd h hl
    have hne : ¬v = st._available_letters := by rw [hav]; exact hv
    simp [set_available_letters, hne, hl]

/-- Witness for C4 on engines with `available_letters = "cat"` and
`limited_letters = "cat"` respectively. -/
theorem wordtool_C4_mutual_exclusion_witness :
    ((set_limited_letters avail_cat_state "xyz").2 = some WordToolError.ConflictingConstraint
     ∧ (set_limited_letters avail_cat_state "xyz").1._available_letters =
         avail_cat_state._available_letters
     ∧ (set_limited_letters avail_cat_state "xyz").1._limited_letters =
         avail_cat_state._limited_letters)
    ∧ ((set_available_letters limited_cat_state "xyz").2 = some WordToolError.ConflictingConstraint
     ∧ (set_available_letters limited_cat_state "xyz").1._available_letters =
         limited_cat_state._available_letters
     ∧ (set_available_letters limited_cat_state "xyz").1._limited_letters =
         limited_cat_state._limited_letters) :=
  ⟨(wordtool_C4_mutual_exclusion avail_cat_state "xyz" (Or.inr rfl)).1 (by decide) (by decide),
   (wordtool_C4_mutual_exclusion limited_cat_state "xyz" (Or.inl rfl)).2 (by decide) (by decide)⟩

/-! ## Effective length bounds (C7) -/

theorem update_regex_eff_max (s : WordToolState) :
    (_update_excluded_letters_regex s)._effective_max_length = s._effective_max_length := rfl

theorem update_eff_max_spec (st : WordToolState) :
    (_update_effective_max_length st)._effective_max_length =
      effective_max_length_spec st._max_length st._available_letters := by
  simp only [_update_effective_max_length, effective_max_length_spec]
  split_ifs <;> rfl

theorem update_eff_min_spec (st : WordToolState) :
    (_update_effective_min_length st)._effective_min_length =
      effective_min_length_spec st._min_length st._included_letters := by
  simp only [_update_effective_min_length, effective_min_length_spec]
  split_ifs <;> rfl

/-- C7: the effective length bounds equal the spec's formulas
(`min(maxLength, len(availableLetters))` / `max(minLength,
len(includedLetters))` with the stated fallbacks), the recomputations are
idempotent, every setter of an input re-runs them, and the spec's two
concrete scenarios hold (`includedLetters = "cat"` alone gives effective min
3, an explicit `minLength = 5` then gives 5). -/
theorem wordtool_C7_effective_lengths :
    (∀ st : WordToolState, (_update_effective_max_length st)._effective_max_length =
      effective_max_length_spec st._max_length st._available_letters)
    ∧ (∀ st : WordToolState, (_update_effective_min_length st)._effective_min_length =
      effective_min_length_spec st._min_length st._included_letters)
    ∧ (∀ st : WordToolState,
      _update_effective_max_length (_update_effective_max_length st) =
        _update_effective_max_length st)
    ∧ (∀ st : WordToolState,
      _update_effective_min_length (_update_effective_min_length st) =
        _update_effective_min_length st)
    ∧ (∀ (st : WordToolState) (v : Nat), (set_max_length st v)._effective_max_length =
      effective_max_length_spec v st._available_letters)
    ∧ (∀ (st : WordToolState) (v : Nat), (set_min_length st v)._effective_min_length =
      effective_min_length_spec v st._included_letters)
    ∧ (∀ (st : WordToolState) (v : String), (set_included_letters st v)._effective_min_length =
      effective_min_length_spec st._min_length v)
    ∧ (∀ (st : WordToolState) (v : String), v ≠ st._available_letters →
      (set_available_letters st v).2 = none →
      ((set_available_letters st v).1)._effective_max_length =
        effective_max_length_spec st._max_length v)
    ∧ (set_included_letters WordTool_init_fields "cat")._effective_min_length = 3
    ∧ (set_min_length (set_included_letters WordTool_init_fields "cat") 5)._effective_min_length = 5 := by
  refine ⟨update_eff_max_spec, update_eff_min_spec, ?_, ?_, ?_, ?_, ?_, ?_, by decide, by decide⟩
  · intro st
    simp only [_update_effective_max_length]
    split_ifs <;> rfl
  · intro st
    simp only [_update_effective_min_length]
    split_ifs <;> rfl
  · intro st v
    rw [set_max_length, update_eff_max_spec]
  · intro st v
    rw [set_min_length, update_eff_min_spec]
  · intro st v
    rw [set_included_letters, update_eff_min_spec]
  · intro st v hv h2
    have hne : ¬v = st._available_letters := hv
    by_cases hl : st._limited_letters ≠ ""
    · exfalso
      simp [set_available_letters, hne, hl] at h2
    · simp [set_available_letters, hne, hl, update_regex_eff_max, update_eff_max_spec]

/-- Witness for C7's setter clauses at concrete inputs. -/
theorem wordtool_C7_effective_lengths_witness :
    ((set_available_letters (set_max_length WordTool_init_fields 2) "cat").1)._effective_max_length =
      effective_max_length_spec (set_max_length WordTool_init_fields 2)._max_length "cat" :=
  wordtool_C7_effective_lengths.2.2.2.2.2.2.2.1 (set_max_length WordTool_init_fields 2) "cat"
    (by decide) (by decide)

/-! ## Pattern setter error handling (C9, C10) -/

/-- C9: assigning a pattern that fails to compile raises `InvalidPattern` at
the assignment itself (the setter is the operation that reports the error;
queries are total and report nothing), while assigning the empty string or a
pattern that compiles succeeds. -/
theorem wordtool_C9_pattern_errors (compile : String → Option (String → Bool))
    (st : WordToolState) (v : String) :
    (v ≠ "" → compile v = none →
      (set_pattern compile st v).2 = some WordToolError.InvalidPattern)
    ∧ (v = "" → (set_pattern compile st v).2 = none)
    ∧ (∀ r : String → Bool, compile v = some r → (set_pattern compile st v).2 = none) := by
  refine ⟨?_, ?_, ?_⟩
  · intro hv hc
    simp [set_pattern, hv, hc]
  · intro hv
    simp [set_pattern, hv]
  · intro r hr
    by_cases hv : v ≠ ""
    · simp [set_pattern, hv, hr]
    · simp [set_pattern, hv]

/-- Witness for C9 with the concrete compiler `compile_stub` (for which
`"("` is malformed and `"ab"` compiles). -/
theorem wordtool_C9_pattern_errors_witness :
    (set_pattern compile_stub WordTool_init_fields "(").2 = some WordToolError.InvalidPattern
    ∧ (set_pattern compile_stub WordTool_init_fields "").2 = none
    ∧ (set_pattern compile_stub WordTool_init_fields "ab").2 = none :=
  ⟨(wordtool_C9_pattern_errors compile_stub WordTool_init_fields "(").1 (by decide) rfl,
   (wordtool_C9_pattern_errors compile_stub WordTool_init_fields "").2.1 rfl,
   (wordtool_C9_pattern_errors compile_stub WordTool_init_fields "ab").2.2
     (fun w => w == "ab") rfl⟩

/-- C10: a failing pattern assignment is not atomic: the error is raised
with `_pattern` already replaced by the invalid value and the cache already
marked stale, while the compiled `_regex` used by queries keeps its previous
value. -/
theorem wordtool_C10_pattern_not_atomic (compile : String → Option (String → Bool))
    (st : WordToolState) (v : String) (hv : v ≠ "") (hc : compile v = none) :
    (set_pattern compile st v).2 = some WordToolError.InvalidPattern
    ∧ ((set_pattern compile st v).1)._pattern = v
    ∧ ((set_pattern compile st v).1)._cache_is_good = false
    ∧ ((set_pattern compile st v).1)._regex = st._regex := by
  refine ⟨?_, ?_, ?_, ?_⟩ <;> simp [set_pattern, hv, hc]

/-- Witness for C10: after `pattern = "ab"` compiles, the failing assignment
`pattern = "("` leaves the `"ab"` regex installed. -/
theorem wordtool_C10_pattern_not_atomic_witness :
    (set_pattern compile_stub pattern_ab_state "(").2 = some WordToolError.InvalidPattern
    ∧ ((set_pattern compile_stub pattern_ab_state "(").1)._pattern = "("
    ∧ ((set_pattern compile_stub pattern_ab_state "(").1)._cache_is_good = false
    ∧ ((set_pattern compile_stub pattern_ab_state "(").1)._regex = pattern_ab_state._regex :=
  wordtool_C10_pattern_not_atomic compile_stub pattern_ab_state "(" (by decide) rfl

/-! ## The derived excluded-letters regex (C6, C8) -/

theorem toList_push (s : String) (c : Char) : (s.push c).toList = s.toList ++ [c] := rfl

theorem update_regex_field (st : WordToolState) :
    (_update_excluded_letters_regex st)._excluded_letters_regex =
      if _excl_class st = [] then none else some (_excl_class st) := rfl

theorem mem_excl_class (st : WordToolState) (x : Char) :
    x ∈ _excl_class st ↔
      x ∈ st._excluded_letters.toList ∨ x ∈ _unavailable_letters st := by
  simp [_excl_class, List.mem_dedup, List.mem_append]

theorem excl_match_true_iff (st : WordToolState) (h : RegexConsistent st) (w : String) :
    _excluded_match st w = true ↔ ∃ ch ∈ w.toList, ch ∈ _excl_class st := by
  rw [RegexConsistent, update_regex_field] at h
  rw [_excluded_match, h]
  by_cases hc : _excl_class st = []
  · simp [hc]
  · simp [hc, _char_class_search, List.any_eq_true]

theorem set_excluded_regex_consistent (st : WordToolState) (v : String) :
    RegexConsistent (set_excluded_letters st v) := rfl

theorem set_excluded_fields (st : WordToolState) (v : String) :
    (set_excluded_letters st v)._excluded_letters = v
    ∧ (set_excluded_letters st v)._cache_is_good = false
    ∧ (set_excluded_letters st v).wordlist = st.wordlist
    ∧ (set_excluded_letters st v).extra_tests = st.extra_tests
    ∧ _unavailable_letters (set_excluded_letters st v) = _unavailable_letters st :=
  ⟨rfl, rfl, rfl, rfl, rfl⟩

theorem excl_match_mono (st : WordToolState) (v : String)
    (hsub : ∀ x, x ∈ st._excluded_letters.toList → x ∈ v.toList)
    (hcons : RegexConsistent st) (w : String) :
    _excluded_match st w = true → _excluded_match (set_excluded_letters st v) w = true := by
  intro h
  rw [excl_match_true_iff st hcons w] at h
  obtain ⟨ch, hchw, hchcls⟩ := h
  rw [excl_match_true_iff _ (set_excluded_regex_consistent st v) w]
  refine ⟨ch, hchw, ?_⟩
  rw [mem_excl_class] at hchcls ⊢
  rw [(set_excluded_fields st v).1, (set_excluded_fields st v).2.2.2.2]
  rcases hchcls with h1 | h2
  · exact Or.inl (hsub ch h1)
  · exact Or.inr h2

theorem passes_internal_mono_excluded (st : WordToolState) (v : String)
    (hsub : ∀ x, x ∈ st._excluded_letters.toList → x ∈ v.toList)
    (hcons : RegexConsistent st) (w : String) :
    passes_internal_tests (set_excluded_letters st v) w = true →
    passes_internal_tests st w = true := by
  intro h
  have hmin : (set_excluded_letters st v)._effective_min_length =
    st._effective_min_length := rfl
  have hmax : (set_excluded_letters st v)._effective_max_length =
    st._effective_max_length := rfl
  have hrf : _regex_fail (set_excluded_letters st v) w = _regex_fail st w := rfl
  have hsi : _subset_and_included (set_excluded_letters st v) w =
    _subset_and_included st w := rfl
  simp only [passes_internal_tests, hmin, hmax, hrf, hsi] at h ⊢
  by_cases hex : _excluded_match st w = true
  · have hex' := excl_match_mono st v hsub hcons w hex
    rw [hex'] at h
    split_ifs at h <;> simp_all
  · split_ifs at h ⊢ <;> simp_all

/-- C6: on a consistent engine state, appending a lowercase letter to
`excluded_letters` only tightens the result: every word returned by
`find_words()` after the mutation was also returned before it. -/
theorem wordtool_C6_excluded_monotone (st : WordToolState) (c : Char)
    (hregex : RegexConsistent st) (hcache : CacheConsistent st)
    (h1 : 'a' ≤ c) (h2 : c ≤ 'z') :
    (find_words (set_excluded_letters st (st._excluded_letters.push c))).2 ⊆
      (find_words st).2 := by
  intro w hw
  rw [find_words_stale _ (set_excluded_fields st _).2.1] at hw
  rw [List.mem_filter] at hw
  obtain ⟨hwl, hpred⟩ := hw
  rw [Bool.and_eq_true] at hpred
  have hsub : ∀ x, x ∈ st._excluded_letters.toList →
      x ∈ (st._excluded_letters.push c).toList := by
    intro x hx
    rw [toList_push]
    exact List.mem_append_left _ hx
  have hint : passes_internal_tests st w = true :=
    passes_internal_mono_excluded st _ hsub hregex w hpred.1
  have hwl' : w ∈ st.wordlist := by
    rw [(set_excluded_fields st _).2.2.1] at hwl
    exact hwl
  have hext : passes_extra_tests st w = true := hpred.2
  cases hcg : st._cache_is_good
  · rw [find_words_stale st hcg, List.mem_filter, Bool.and_eq_true]
    exact ⟨hwl', hint, hext⟩
  · rw [find_words_fresh st hcg, hcache hcg, List.mem_filter]
    refine ⟨?_, hext⟩
    rw [List.mem_filter]
    exact ⟨hwl', hint⟩

/-- Witness for C6 on a fresh engine with word list `["cat","dog"]` and the
letter `'o'`. -/
theorem wordtool_C6_excluded_monotone_witness :
    (find_words (set_excluded_letters word_state (word_state._excluded_letters.push 'o'))).2 ⊆
      (find_words word_state).2 :=
  wordtool_C6_excluded_monotone word_state 'o' rfl
    (fun h => absurd h (by decide)) (by decide) (by decide)

theorem mem_unavailable_iff (st : WordToolState) (hcnt : CountedConsistent st) (x : Char) :
    x ∈ _unavailable_letters st ↔
      (st._available_letters ≠ "" ∧ _letter_count st._available_letters '?' = 0 ∧
       (x ∈ _az_letters ∨ x = '?') ∧ _letter_count st._available_letters x = 0) := by
  by_cases ha : st._available_letters ≠ ""
  · have hc := hcnt ha
    simp only [_unavailable_letters, hc]
    by_cases hq : _letter_count st._available_letters '?' = 0
    · rw [if_pos ⟨ha, hq⟩]
      simp only [List.mem_filter, List.mem_dedup, List.mem_append, List.mem_singleton,
        beq_iff_eq]
      constructor
      · rintro ⟨hk, h0⟩
        refine ⟨ha, hq, ?_, h0⟩
        rcases hk with (h | h) | h
        · exact Or.inl h
        · exact absurd h0 (letter_count_ne_zero_of_mem _ _ h)
        · exact Or.inr h
      · rintro ⟨-, -, hk, h0⟩
        refine ⟨?_, h0⟩
        rcases hk with h | h
        · exact Or.inl (Or.inl h)
        · exact Or.inr h
    · rw [if_neg (fun hand => hq hand.2)]
      simp [hq]
  · have ha' : st._available_letters = "" := not_not.mp ha
    cases hsome : st._available_letters_counted with
    | none => simp [_unavailable_letters, hsome, ha']
    | some cnt => simp [_unavailable_letters, hsome, ha']

/-- C8 (amended): on a consistent engine state the derived excluded-letters
regex matches a one-character string `ch` iff `ch` is a literal excluded
letter, or `available_letters` is active with zero wildcard slack, `ch` is
one of the 26 lowercase letters or `'?'` (the keys of the counted
dictionary), and its available count is zero; the regex is absent exactly
when the derived class is empty; and when `available_letters` is inactive
(in particular whenever `limited_letters` is the active budget) only the
literal excluded letters are matched. -/
theorem wordtool_C8_amended (st : WordToolState)
    (hregex : RegexConsistent st) (hcnt : CountedConsistent st) :
    (∀ ch : Char,
      _excluded_match st (String.singleton ch) = true ↔
        (ch ∈ st._excluded_letters.toList ∨
         (st._available_letters ≠ "" ∧ _letter_count st._available_letters '?' = 0 ∧
          (ch ∈ _az_letters ∨ ch = '?') ∧ _letter_count st._available_letters ch = 0)))
    ∧ (st._excluded_letters_regex = none ↔ _excl_class st = [])
    ∧ (st._available_letters = "" → ∀ ch : Char,
        (_excluded_match st (String.singleton ch) = true ↔
          ch ∈ st._excluded_letters.toList)) := by
  have hmain : ∀ ch : Char,
      _excluded_match st (String.singleton ch) = true ↔
        (ch ∈ st._excluded_letters.toList ∨
         (st._available_letters ≠ "" ∧ _letter_count st._available_letters '?' = 0 ∧
          (ch ∈ _az_letters ∨ ch = '?') ∧ _letter_count st._available_letters ch = 0)) := by
    intro ch
    rw [excl_match_true_iff st hregex]
    have hsing : (String.singleton ch).toList = [ch] := rfl
    rw [hsing]
    simp only [List.mem_singleton, exists_eq_left]
    rw [mem_excl_class, mem_unavailable_iff st hcnt]
  refine ⟨hmain, ?_, ?_⟩
  · rw [RegexConsistent, update_regex_field] at hregex
    rw [hregex]
    by_cases hc : _excl_class st = []
    · simp [hc]
    · simp [hc]
  · intro ha ch
    rw [hmain ch]
    simp [ha]

/-- C8 counterexample: after `available_letters = "cat"` the claim's
characterisation fails at the character `'A'`: `'A'` is not excluded and has
available count zero with zero wildcard slack, yet the compiled character
class (built only from the counted dictionary's keys `a..z` and `'?'`) does
not match `"A"`. -/
theorem wordtool_C8_counterexample :
    ¬ (_excluded_match avail_cat_state (String.singleton 'A') = true ↔
        ('A' ∈ avail_cat_state._excluded_letters.toList ∨
         (avail_cat_state._available_letters ≠ "" ∧
          _letter_count avail_cat_state._available_letters '?' = 0 ∧
          _letter_count avail_cat_state._available_letters 'A' = 0))) := by
  decide

/-- Witness for C8 (amended) at the state with `available_letters = "cat"`
and the character `'b'`. -/
theorem wordtool_C8_amended_witness :
    _excluded_match avail_cat_state (String.singleton 'b') = true ↔
      ('b' ∈ avail_cat_state._excluded_letters.toList ∨
       (avail_cat_state._available_letters ≠ "" ∧
        _letter_count avail_cat_state._available_letters '?' = 0 ∧
        ('b' ∈ _az_letters ∨ 'b' = '?') ∧
        _letter_count avail_cat_state._available_letters 'b' = 0)) :=
  (wordtool_C8_amended avail_cat_state rfl (fun _ => rfl)).1 'b'
